import Mathlib

/-!
Verification of the `rust-web-push` core against its specification.

The embedding is shallow: the repository's Rust functions are translated
into pure Lean functions.  External crates (the HTTP stack, the `pem`,
`sec1`, `jwt_simple` and `ct_codecs` crypto codecs) are modelled at their
interface boundary, as the specification itself prescribes, via the
`CryptoIF` record of abstract decoding functions.  Parts of the repository
that sit outside the provided sources (the error-type conversions in
`error.rs`, `vapid/signer.rs`, `vapid/key.rs`) are modelled from the
specification and marked so in their doc comments.
-/

set_option autoImplicit false

namespace WebPush

/-- A parsed `Retry-After` value: either a delay in seconds or an absolute
HTTP date (modelled as seconds since the epoch).  Mirrors
`RetryAfter::Delay(Duration) | RetryAfter::DateTime(SystemTime)`. -/
inductive RetryAfter where
  | delay (secs : Nat)
  | dateTime (t : Nat)
  deriving Repr, DecidableEq

/-- The error taxonomy of the crate (`WebPushError`), restricted to the
kinds the specification's §7 names; `other` stands for the remaining
codec pass-through kinds, which the send pipeline never inspects. -/
inductive WebPushError where
  | invalidCryptoKeys
  | missingCryptoKeys
  | invalidUri
  | responseTooLarge
  | serverError (retry_after : Option RetryAfter) (info : String)
  | transportError
  | other (code : Nat)
  deriving Repr, DecidableEq

/-- `MAX_RESPONSE_SIZE` from `src/clients/mod.rs`: `64 * 1024`. -/
def MAX_RESPONSE_SIZE : Nat := 64 * 1024

/-- One event produced by awaiting `chunks.frame()`: a data frame, a
non-data (trailer) frame whose `data_ref()` is `None`, or a transport
error surfaced by the `chunk?` operator. -/
inductive Chunk where
  | data (bytes : List Nat)
  | trailer
  | err
  deriving Repr, DecidableEq

/-- The body-reading loop of `HyperWebPushClient::send`
(src/clients/hyper_client.rs lines 71–80): extend the accumulated buffer
with each data frame and abort with `ResponseTooLarge` the moment the
buffer's length exceeds `MAX_RESPONSE_SIZE`. -/
def readBody : List Chunk → List Nat → Except WebPushError (List Nat)
  | [], body => .ok body
  | .err :: _, _ => .error .transportError
  | .trailer :: rest, body => readBody rest body
  | .data bs :: rest, body =>
      if (body ++ bs).length > MAX_RESPONSE_SIZE then .error .responseTooLarge
      else readBody rest (body ++ bs)

/-- Decimal value of one digit character. -/
def decVal (c : Char) : Option Nat :=
  if '0' ≤ c ∧ c ≤ '9' then some (c.toNat - 48) else none

/-- Left-to-right accumulation of a decimal numeral. -/
def parseDecimalChars : List Char → Nat → Option Nat
  | [], acc => some acc
  | c :: rest, acc =>
      match decVal c with
      | none => none
      | some d => parseDecimalChars rest (acc * 10 + d)

/-- Parse a non-empty all-digit string as a natural number, the
`u64::from_str` reading of a `Retry-After` delay value. -/
def parseDecimal (s : String) : Option Nat :=
  match s.toList with
  | [] => none
  | cs => parseDecimalChars cs 0

/-- Modelled from the spec: `RetryAfter::from_str` lives in `error.rs`,
which is not among the provided sources.  The spec (§4.5) says the header
value is parsed "as either an HTTP date or a delay in seconds"; the
numeric form is parsed concretely and HTTP-date parsing is an abstract
parameter. -/
def RetryAfter.from_str (httpDate : String → Option Nat) (s : String) :
    Option RetryAfter :=
  match parseDecimal s with
  | some n => some (.delay n)
  | none => (httpDate s).map .dateTime

/-- An HTTP response as the send pipeline observes it: status code, the
`Retry-After` header value when present and representable as a string,
and the body as a stream of chunks. -/
structure Response where
  status : Nat
  retryAfterHeader : Option String
  body : List Chunk

/-- Lines 62–66 of `hyper_client.rs`: look up `Retry-After` and feed it
through `RetryAfter::from_str`; any absence or parse failure yields
`none`. -/
def extractRetryAfter (httpDate : String → Option Nat) (resp : Response) :
    Option RetryAfter :=
  resp.retryAfterHeader.bind (RetryAfter.from_str httpDate)

/-- Lines 89–97 of `hyper_client.rs`: a server-error failure that carries
no retry hint gets the header-derived hint; every other outcome is
returned unchanged. -/
def mergeRetryHint (retry_after : Option RetryAfter)
    (response : Except WebPushError Unit) : Except WebPushError Unit :=
  match response with
  | .error (.serverError none info) => .error (.serverError retry_after info)
  | r => r

/-- `HyperWebPushClient::send`, after the request has been issued and the
response head received: extract the retry hint, stream the body under the
size cap, hand status and body to the response codec
(`request_builder::parse_response`, an external collaborator passed as
`parseResponse`), and merge the hint into a bare server error. -/
def send (httpDate : String → Option Nat)
    (parseResponse : Nat → List Nat → Except WebPushError Unit)
    (resp : Response) : Except WebPushError Unit :=
  match readBody resp.body [] with
  | .error e => .error e
  | .ok body =>
      mergeRetryHint (extractRetryAfter httpDate resp)
        (parseResponse resp.status body)

/-- Total number of body bytes carried by a chunk list's data frames. -/
def chunksLen : List Chunk → Nat
  | [] => 0
  | .data bs :: rest => bs.length + chunksLen rest
  | _ :: rest => chunksLen rest

/-- Concatenation of the body bytes carried by a chunk list's data
frames. -/
def chunksData : List Chunk → List Nat
  | [] => []
  | .data bs :: rest => bs ++ chunksData rest
  | _ :: rest => chunksData rest

/-- Whether a chunk list contains a transport-error event. -/
def hasErr : List Chunk → Bool
  | [] => false
  | .err :: _ => true
  | _ :: rest => hasErr rest

/-- A JSON-representable claim value (`serde_json::Value`, restricted to
the scalar shapes; the structure never inspects the value, so the exact
constructor set is immaterial). -/
inductive Value where
  | null
  | bool (b : Bool)
  | num (n : Int)
  | str (s : String)
  deriving Repr, DecidableEq

/-- Insert-or-replace into an association list, the `BTreeMap::insert`
semantics of `claims.custom`. -/
def insertA : List (String × Value) → String → Value → List (String × Value)
  | [], k, v => [(k, v)]
  | (k', v') :: rest, k, v =>
      if k' = k then (k, v) :: rest else (k', v') :: insertA rest k v

/-- First-match lookup in an association list. -/
def lookupA : List (String × Value) → String → Option Value
  | [], _ => none
  | (k', v') :: rest, k => if k' = k then some v' else lookupA rest k

/-- The claims set carried by a builder (`jwt_simple`'s `JWTClaims` with
empty custom map and a 12-hour validity, restricted to the fields the
crate's behaviour depends on): the custom claim map and the expiry
instant (seconds since the epoch). -/
structure Claims where
  custom : List (String × Value)
  expiresAt : Nat
  deriving Repr, DecidableEq

/-- `SubscriptionInfo` from `message.rs`: one push subscription. -/
structure SubscriptionInfo where
  endpoint : String
  p256dh : String
  auth : String
  deriving Repr, DecidableEq

/-- A parsed absolute URI (`http::Uri`), at the granularity the crate
uses: scheme, authority, and the rest. -/
structure Uri where
  scheme : String
  authority : String
  path : String
  query : Option String
  deriving Repr, DecidableEq

/-- One PEM block as returned by `pem::parse_many`: a tag and the decoded
contents. -/
structure PemBlock where
  tag : String
  contents : List Nat
  deriving Repr, DecidableEq

/-- The external-collaborator boundary: the decoding and signing
primitives provided by the `pem`, `sec1`, `jwt_simple` and `http` crates,
abstracted over the canonical key-pair type `K` (`ES256KeyPair`).
`sec1Parse` is `EcPrivateKey::try_from(..).private_key`, `fromBytes` is
`ES256KeyPair::from_bytes`, `fromPem` is `ES256KeyPair::from_pem`,
`publicKey` derives the raw uncompressed public-key bytes, `parseUri` is
`str::parse::<Uri>`, and `signToken` is the ES256 signing primitive
producing the compact token. -/
structure CryptoIF (K : Type) where
  pemParse : String → Option (List PemBlock)
  sec1Parse : List Nat → Option (List Nat)
  fromBytes : List Nat → Option K
  fromPem : String → Option K
  publicKey : K → List Nat
  parseUri : String → Option Uri
  signToken : K → Uri → Claims → Option String

/-- Decode one base64 character of the URL-safe alphabet. -/
def b64Val (c : Char) : Option Nat :=
  if 'A' ≤ c ∧ c ≤ 'Z' then some (c.toNat - 65)
  else if 'a' ≤ c ∧ c ≤ 'z' then some (c.toNat - 97 + 26)
  else if '0' ≤ c ∧ c ≤ '9' then some (c.toNat - 48 + 52)
  else if c = '-' then some 62
  else if c = '_' then some 63
  else none

/-- Strict URL-safe unpadded base64 decoding over a character list
(`ct_codecs::Base64UrlSafeNoPadding::decode_to_vec`): groups of four
characters yield three bytes, a trailing pair or triple yields one or two
bytes with the unused low bits required to be zero, and a trailing single
character or any character outside the URL-safe alphabet is invalid. -/
def b64DecodeChars : List Char → Option (List Nat)
  | [] => some []
  | [_] => none
  | [c1, c2] => do
      let v1 ← b64Val c1
      let v2 ← b64Val c2
      if v2 % 16 = 0 then some [v1 * 4 + v2 / 16] else none
  | [c1, c2, c3] => do
      let v1 ← b64Val c1
      let v2 ← b64Val c2
      let v3 ← b64Val c3
      if v3 % 4 = 0 then some [v1 * 4 + v2 / 16, v2 % 16 * 16 + v3 / 4]
      else none
  | c1 :: c2 :: c3 :: c4 :: rest => do
      let v1 ← b64Val c1
      let v2 ← b64Val c2
      let v3 ← b64Val c3
      let v4 ← b64Val c4
      let tail ← b64DecodeChars rest
      some ((v1 * 4 + v2 / 16) :: (v2 % 16 * 16 + v3 / 4) :: (v3 % 4 * 64 + v4) :: tail)

/-- Strict URL-safe unpadded base64 decoding of a string. -/
def b64DecodeUrl (s : String) : Option (List Nat) :=
  b64DecodeChars s.toList

/-- Modelled from the spec: `VapidKey` lives in `vapid/key.rs`, which is
not among the provided sources; §4.2 describes it as a thin ownership
wrapper around the canonical key pair. -/
structure VapidKey (K : Type) where
  kp : K

/-- `VapidKey::new`. -/
def VapidKey.new {K : Type} (k : K) : VapidKey K := ⟨k⟩

/-- Modelled from the spec: `VapidKey::public_key` (in the missing
`vapid/key.rs`) exposes the raw uncompressed public-key bytes derived
from the key pair. -/
def VapidKey.public_key {K : Type} (C : CryptoIF K) (k : VapidKey K) :
    List Nat :=
  C.publicKey k.kp

/-- `VapidSignature` from `vapid/mod.rs`: the signed token (`auth_t`) and
the raw public-key bytes (`auth_k`). -/
structure VapidSignature where
  auth_t : String
  auth_k : List Nat
  deriving Repr, DecidableEq

/-- `VapidSignatureBuilder` (src/vapid/builder.rs lines 78–82). -/
structure VapidSignatureBuilder (K : Type) where
  claims : Claims
  key : VapidKey K
  subscription_info : SubscriptionInfo

/-- `PartialVapidSignatureBuilder` (src/vapid/builder.rs lines 276–279):
only the key, no claims and no destination. -/
structure PartialVapidSignatureBuilder (K : Type) where
  key : VapidKey K

/-- Modelled from the spec: the audience derivation performed by
`VapidSigner::sign` in the missing `vapid/signer.rs`; §4.3 fixes the
audience to the scheme and authority of the destination's endpoint URL,
with no path or query. -/
def audienceOf (u : Uri) : String :=
  u.scheme ++ "://" ++ u.authority

/-- Modelled from the spec: `VapidSigner::sign` (in the missing
`vapid/signer.rs`): serializes and signs the claims bound to the
endpoint-derived audience into a compact token, returns it with the raw
public key bytes, and fails only when the signing primitive itself fails,
which is treated as a key-validity error (§4.4). -/
def VapidSigner.sign {K : Type} (C : CryptoIF K) (key : VapidKey K)
    (endpoint : Uri) (claims : Claims) : Except WebPushError VapidSignature :=
  match C.signToken key.kp endpoint claims with
  | none => .error .invalidCryptoKeys
  | some token => .ok { auth_t := token, auth_k := C.publicKey key.kp }

/-- Modelled from the spec: the claim map of the signed token produced by
the missing `vapid/signer.rs`.  §4.3 and §9 prescribe defaults-first,
caller-overrides-by-key-replacement semantics: the token's value for a
claim name is the caller-supplied custom value when present, otherwise
the default audience (`aud`) or expiry (`exp`), otherwise absent. -/
def signedClaimLookup (aud : String) (claims : Claims) (name : String) :
    Option Value :=
  match lookupA claims.custom name with
  | some v => some v
  | none =>
      if name = "aud" then some (.str aud)
      else if name = "exp" then some (.num claims.expiresAt)
      else none

namespace VapidSignatureBuilder

variable {K : Type}

/-- `VapidSignatureBuilder::from_ec` (builder.rs lines 215–221): fresh
claims with an empty custom map and `Duration::from_hours(12)` validity
from the construction instant `now`, the wrapped key, and the borrowed
subscription info. -/
def from_ec (ec_key : K) (subscription_info : SubscriptionInfo)
    (now : Nat) : VapidSignatureBuilder K :=
  { claims := { custom := [], expiresAt := now + 12 * 3600 }
    key := VapidKey.new ec_key
    subscription_info }

/-- The scan loop of `read_pem` (builder.rs lines 231–248): the first
block tagged `EC PRIVATE KEY` is decoded as SEC1 and the scalar fed to
`from_bytes`; the first block tagged `PRIVATE KEY` makes the whole buffer
be decoded as PKCS8 via `from_pem`; other blocks are skipped; an empty
remainder yields `MissingCryptoKeys`. -/
def readPemBlocks (C : CryptoIF K) (buffer : String) :
    List PemBlock → Except WebPushError K
  | [] => .error .missingCryptoKeys
  | p :: rest =>
      if p.tag = "EC PRIVATE KEY" then
        match C.sec1Parse p.contents with
        | none => .error .invalidCryptoKeys
        | some private_key =>
            match C.fromBytes private_key with
            | none => .error .invalidCryptoKeys
            | some k => .ok k
      else if p.tag = "PRIVATE KEY" then
        match C.fromPem buffer with
        | none => .error .invalidCryptoKeys
        | some k => .ok k
      else readPemBlocks C buffer rest

/-- `VapidSignatureBuilder::read_pem` (builder.rs lines 224–249):
`pem::parse_many` failure is `InvalidCryptoKeys`; otherwise the parsed
blocks are scanned. -/
def read_pem (C : CryptoIF K) (buffer : String) : Except WebPushError K :=
  match C.pemParse buffer with
  | none => .error .invalidCryptoKeys
  | some parsed => readPemBlocks C buffer parsed

/-- `VapidSignatureBuilder::from_pem` (builder.rs lines 91–98). -/
def from_pem (C : CryptoIF K) (pk_pem : String)
    (subscription_info : SubscriptionInfo) (now : Nat) :
    Except WebPushError (VapidSignatureBuilder K) :=
  match read_pem C pk_pem with
  | .error e => .error e
  | .ok pr_key => .ok (from_ec pr_key subscription_info now)

/-- `VapidSignatureBuilder::from_pem_no_sub` (builder.rs lines 107–113). -/
def from_pem_no_sub (C : CryptoIF K) (pk_pem : String) :
    Except WebPushError (PartialVapidSignatureBuilder K) :=
  match read_pem C pk_pem with
  | .error e => .error e
  | .ok pr_key => .ok { key := VapidKey.new pr_key }

/-- `VapidSignatureBuilder::from_der` (builder.rs lines 116–132): SEC1
parse of the raw DER bytes, then `from_bytes` on the embedded scalar,
both failures mapped to `InvalidCryptoKeys`. -/
def from_der (C : CryptoIF K) (der_key : List Nat)
    (subscription_info : SubscriptionInfo) (now : Nat) :
    Except WebPushError (VapidSignatureBuilder K) :=
  match C.sec1Parse der_key with
  | none => .error .invalidCryptoKeys
  | some private_key =>
      match C.fromBytes private_key with
      | none => .error .invalidCryptoKeys
      | some k => .ok (from_ec k subscription_info now)

/-- `VapidSignatureBuilder::from_der_no_sub` (builder.rs lines 136–150). -/
def from_der_no_sub (C : CryptoIF K) (der_key : List Nat) :
    Except WebPushError (PartialVapidSignatureBuilder K) :=
  match C.sec1Parse der_key with
  | none => .error .invalidCryptoKeys
  | some private_key =>
      match C.fromBytes private_key with
      | none => .error .invalidCryptoKeys
      | some k => .ok { key := VapidKey.new k }

/-- `VapidSignatureBuilder::from_base64` (builder.rs lines 166–176):
URL-safe unpadded base64 decoding of the bare scalar, then `from_bytes`,
both failures mapped to `InvalidCryptoKeys`. -/
def from_base64 (C : CryptoIF K) (encoded : String)
    (subscription_info : SubscriptionInfo) (now : Nat) :
    Except WebPushError (VapidSignatureBuilder K) :=
  match b64DecodeUrl encoded with
  | none => .error .invalidCryptoKeys
  | some bytes =>
      match C.fromBytes bytes with
      | none => .error .invalidCryptoKeys
      | some pr_key => .ok (from_ec pr_key subscription_info now)

/-- `VapidSignatureBuilder::from_base64_no_sub` (builder.rs lines
183–192). -/
def from_base64_no_sub (C : CryptoIF K) (encoded : String) :
    Except WebPushError (PartialVapidSignatureBuilder K) :=
  match b64DecodeUrl encoded with
  | none => .error .invalidCryptoKeys
  | some bytes =>
      match C.fromBytes bytes with
      | none => .error .invalidCryptoKeys
      | some pr_key => .ok { key := VapidKey.new pr_key }

/-- `VapidSignatureBuilder::add_claim` (builder.rs lines 200–205):
insert into the custom claim map. -/
def add_claim (b : VapidSignatureBuilder K) (key : String) (val : Value) :
    VapidSignatureBuilder K :=
  { b with claims := { b.claims with custom := insertA b.claims.custom key val } }

/-- `VapidSignatureBuilder::build` (builder.rs lines 208–213): parse the
endpoint as a URI — failure is the `InvalidUri` kind per the error
taxonomy — then sign. -/
def build (C : CryptoIF K) (b : VapidSignatureBuilder K) :
    Except WebPushError VapidSignature :=
  match C.parseUri b.subscription_info.endpoint with
  | none => .error .invalidUri
  | some endpoint => VapidSigner.sign C b.key endpoint b.claims

end VapidSignatureBuilder

namespace PartialVapidSignatureBuilder

variable {K : Type}

/-- `PartialVapidSignatureBuilder::add_sub_info` (builder.rs lines
281–289): keep the key, construct entirely fresh claims with an empty
custom map and 12-hour validity from `now`. -/
def add_sub_info (p : PartialVapidSignatureBuilder K)
    (subscription_info : SubscriptionInfo) (now : Nat) :
    VapidSignatureBuilder K :=
  { key := p.key
    claims := { custom := [], expiresAt := now + 12 * 3600 }
    subscription_info }

/-- `PartialVapidSignatureBuilder::get_public_key` (builder.rs lines
294–296). -/
def get_public_key (C : CryptoIF K) (p : PartialVapidSignatureBuilder K) :
    List Nat :=
  VapidKey.public_key C p.key

end PartialVapidSignatureBuilder

/-- A small concrete instance of the collaborator interface, used to
evaluate the loaders and the builder on closed inputs.  The key-pair type
is the scalar itself and the "derived public key" tags the scalar with a
leading `65` byte (injective, as a real uncompressed-point derivation
is). -/
def demoCrypto : CryptoIF (List Nat) where
  pemParse s :=
    if s = "SEC1PEM" then some [⟨"X", []⟩, ⟨"EC PRIVATE KEY", [1, 2, 3]⟩]
    else if s = "PKCS8PEM" then some [⟨"PRIVATE KEY", [9]⟩]
    else if s = "NOKEYS" then some [⟨"CERTIFICATE", [7]⟩]
    else none
  sec1Parse bs := some bs
  fromBytes bs := some bs
  fromPem s := if s = "PKCS8PEM" then some [1, 2, 3] else none
  publicKey k := 65 :: k
  parseUri s :=
    if s = "https://push.example.com/sub/1" then
      some ⟨"https", "push.example.com", "/sub/1", none⟩
    else none
  signToken _ _ _ := some "token"

/-- A concrete subscription whose endpoint parses under `demoCrypto`. -/
def demoSub : SubscriptionInfo :=
  ⟨"https://push.example.com/sub/1", "p256dh", "auth"⟩

/-- A concrete subscription whose endpoint does not parse under
`demoCrypto`. -/
def demoBadSub : SubscriptionInfo :=
  ⟨"not a uri", "p256dh", "auth"⟩

/-- The 32-byte private scalar encoded by the spec's fixture key
`IQ9Ur0ykXoHS9gzfYX0aBjy9lvdrjx_PFUXmie9YRcY`. -/
def fixtureScalar : List Nat :=
  [33, 15, 84, 175, 76, 164, 94, 129, 210, 246, 12, 223, 97, 125, 26, 6,
   60, 189, 150, 247, 107, 143, 31, 207, 21, 69, 230, 137, 239, 88, 69, 198]

/-! ## Theorems -/

/-- Byte count of a single-data-chunk stream. -/
theorem chunksLen_single (bs : List Nat) :
    chunksLen [Chunk.data bs] = bs.length := by
  simp only [chunksLen, Nat.add_zero]

/-- Merging an absent hint changes nothing. -/
theorem mergeRetryHint_none (r : Except WebPushError Unit) :
    mergeRetryHint none r = r := by
  cases r with
  | ok u => rfl
  | error e =>
      cases e with
      | invalidCryptoKeys => rfl
      | missingCryptoKeys => rfl
      | invalidUri => rfl
      | responseTooLarge => rfl
      | serverError ra info => cases ra <;> rfl
      | transportError => rfl
      | other c => rfl

/-- C1: if the codec result of a send is a server-error failure carrying
no retry hint, the final failure is that server error with the
header-derived `Retry-After` hint filled in; every other codec outcome —
success, a server error already carrying a hint, or any other failure
kind — is returned unchanged, so an existing hint is never overwritten
and no other failure kind receives the header-derived hint. -/
theorem send_merges_hint_into_bare_server_error_only
    (httpDate : String → Option Nat)
    (parseResponse : Nat → List Nat → Except WebPushError Unit)
    (resp : Response) (body : List Nat)
    (hbody : readBody resp.body [] = .ok body) :
    (∀ info, parseResponse resp.status body = .error (.serverError none info) →
        send httpDate parseResponse resp =
          .error (.serverError (extractRetryAfter httpDate resp) info)) ∧
    (∀ r, parseResponse resp.status body = r →
        (∀ info, r ≠ .error (.serverError none info)) →
        send httpDate parseResponse resp = r) := by
  constructor
  · intro info hcodec
    simp only [send, hbody]
    rw [hcodec]
    rfl
  · intro r hcodec hne
    simp only [send, hbody]
    rw [hcodec]
    cases r with
    | ok u => rfl
    | error e =>
        cases e with
        | invalidCryptoKeys => rfl
        | missingCryptoKeys => rfl
        | invalidUri => rfl
        | responseTooLarge => rfl
        | serverError ra info =>
            cases ra with
            | none => exact absurd rfl (hne info)
            | some a => rfl
        | transportError => rfl
        | other c => rfl

/-- Witness for C1, matching the spec's `Retry-After: 120` example: a
codec result `ServerError { retry_after: None, info: "boom" }` comes back
with the 120-second header hint filled in. -/
theorem send_merges_hint_witness :
    send (fun _ => none) (fun _ _ => .error (.serverError none "boom"))
        ⟨500, some "120", []⟩ =
      .error (.serverError (some (.delay 120)) "boom") :=
  (send_merges_hint_into_bare_server_error_only (fun _ => none)
      (fun _ _ => .error (.serverError none "boom"))
      ⟨500, some "120", []⟩ [] rfl).1 "boom" rfl

/-- Once an error-free run of chunks has pushed the accumulator over the
cap, the loop aborts with `ResponseTooLarge` no matter what chunks would
have followed. -/
theorem readBody_over_cap (post : List Chunk) :
    ∀ (pre : List Chunk) (acc : List Nat), hasErr pre = false →
      acc.length ≤ MAX_RESPONSE_SIZE →
      acc.length + chunksLen pre > MAX_RESPONSE_SIZE →
      readBody (pre ++ post) acc = .error .responseTooLarge := by
  intro pre
  induction pre with
  | nil =>
      intro acc _ hle hgt
      simp only [chunksLen] at hgt
      omega
  | cons c rest ih =>
      intro acc herr hle hgt
      cases c with
      | err => simp [hasErr] at herr
      | trailer =>
          simp only [List.cons_append, readBody]
          exact ih acc (by simpa [hasErr] using herr) hle
            (by simpa [chunksLen] using hgt)
      | data bs =>
          simp only [List.cons_append, readBody]
          by_cases hover : (acc ++ bs).length > MAX_RESPONSE_SIZE
          · rw [if_pos hover]
          · rw [if_neg hover]
            simp only [List.length_append] at hover
            apply ih (acc ++ bs) (by simpa [hasErr] using herr)
            · simp only [List.length_append]
              omega
            · simp only [List.length_append, chunksLen] at hgt ⊢
              omega

/-- C2: as soon as the accumulated body size exceeds the 64 KiB cap,
`send` returns the `ResponseTooLarge` failure — a bare constructor
carrying no portion of the already-read body — and the result does not
depend on any chunk after the error-free over-cap prefix, i.e. no further
chunk is awaited. -/
theorem send_aborts_over_cap (httpDate : String → Option Nat)
    (parseResponse : Nat → List Nat → Except WebPushError Unit)
    (status : Nat) (hdr : Option String) (pre post : List Chunk)
    (herr : hasErr pre = false)
    (hgt : chunksLen pre > MAX_RESPONSE_SIZE) :
    send httpDate parseResponse ⟨status, hdr, pre ++ post⟩ =
      .error .responseTooLarge := by
  simp only [send]
  rw [readBody_over_cap post pre [] herr (by simp [MAX_RESPONSE_SIZE])
    (by simpa using hgt)]

/-- Witness for C2: a single 65537-byte chunk aborts the send even though
a transport error lurks in the unread remainder of the stream. -/
theorem send_aborts_over_cap_witness :
    send (fun _ => none) (fun _ _ => .ok ())
        ⟨200, none, [Chunk.data (List.replicate 65537 0)] ++ [Chunk.err]⟩ =
      .error .responseTooLarge :=
  send_aborts_over_cap (fun _ => none) (fun _ _ => .ok ()) 200 none
    [Chunk.data (List.replicate 65537 0)] [Chunk.err] rfl
    (by rw [chunksLen_single, List.length_replicate]; decide)

/-- An error-free chunk stream whose total size stays within the cap is
read to completion, returning the concatenated body. -/
theorem readBody_ok_of_le :
    ∀ (cs : List Chunk) (acc : List Nat), hasErr cs = false →
      acc.length + chunksLen cs ≤ MAX_RESPONSE_SIZE →
      readBody cs acc = .ok (acc ++ chunksData cs) := by
  intro cs
  induction cs with
  | nil => intro acc _ _; simp [readBody, chunksData]
  | cons c rest ih =>
      intro acc herr hle
      cases c with
      | err => simp [hasErr] at herr
      | trailer =>
          simp only [readBody, chunksData]
          exact ih acc (by simpa [hasErr] using herr) (by simpa [chunksLen] using hle)
      | data bs =>
          simp only [readBody, chunksData]
          rw [if_neg]
          · rw [ih (acc ++ bs) (by simpa [hasErr] using herr)
              (by simp only [List.length_append, chunksLen] at hle ⊢; omega)]
            simp
          · simp only [List.length_append, chunksLen] at hle ⊢
            omega

/-- C10: a response body of exactly 64 KiB (65536 bytes) is not rejected:
the body loop succeeds with the full concatenated body and `send`
proceeds to the codec — the `ResponseTooLarge` failure is triggered only
strictly above the ceiling. -/
theorem send_ok_at_exact_cap (httpDate : String → Option Nat)
    (parseResponse : Nat → List Nat → Except WebPushError Unit)
    (status : Nat) (hdr : Option String) (cs : List Chunk)
    (herr : hasErr cs = false)
    (hlen : chunksLen cs = MAX_RESPONSE_SIZE) :
    readBody cs [] = .ok (chunksData cs) ∧
    send httpDate parseResponse ⟨status, hdr, cs⟩ =
      mergeRetryHint (extractRetryAfter httpDate ⟨status, hdr, cs⟩)
        (parseResponse status (chunksData cs)) := by
  have h := readBody_ok_of_le cs [] herr (by simp [hlen])
  constructor
  · simpa using h
  · simp only [send]
    rw [show readBody cs [] = .ok (chunksData cs) by simpa using h]

/-- Witness for C10: one chunk of exactly 65536 bytes is accepted. -/
theorem send_ok_at_exact_cap_witness :
    readBody [Chunk.data (List.replicate 65536 0)] [] =
      .ok (chunksData [Chunk.data (List.replicate 65536 0)]) ∧
    send (fun _ => none) (fun _ _ => .ok ())
        ⟨200, none, [Chunk.data (List.replicate 65536 0)]⟩ =
      mergeRetryHint
        (extractRetryAfter (fun _ => none) ⟨200, none, [Chunk.data (List.replicate 65536 0)]⟩)
        ((fun _ _ => Except.ok ()) 200 (chunksData [Chunk.data (List.replicate 65536 0)])) :=
  send_ok_at_exact_cap (fun _ => none) (fun _ _ => .ok ()) 200 none
    [Chunk.data (List.replicate 65536 0)] rfl
    (by rw [chunksLen_single, List.length_replicate]; rfl)

/-- C7: the `Retry-After` hint is extracted independently of the response
status; an absent header yields an absent hint; a value that parses
neither as a delay in seconds nor as an HTTP date yields an absent hint; a
decimal value yields a seconds delay and a date value a point in time; and
with an absent hint `send` behaves exactly as the body-read plus codec
composition — hint-extraction failure never fails the send. -/
theorem retryAfter_extraction_props (httpDate : String → Option Nat) :
    (∀ (resp : Response) (s : Nat),
        extractRetryAfter httpDate ⟨s, resp.retryAfterHeader, resp.body⟩ =
          extractRetryAfter httpDate resp) ∧
    (∀ (st : Nat) (body : List Chunk),
        extractRetryAfter httpDate ⟨st, none, body⟩ = none) ∧
    (∀ s, parseDecimal s = none → httpDate s = none →
        RetryAfter.from_str httpDate s = none) ∧
    (∀ s n, parseDecimal s = some n →
        RetryAfter.from_str httpDate s = some (.delay n)) ∧
    (∀ s t, parseDecimal s = none → httpDate s = some t →
        RetryAfter.from_str httpDate s = some (.dateTime t)) ∧
    (∀ (parseResponse : Nat → List Nat → Except WebPushError Unit)
        (resp : Response), extractRetryAfter httpDate resp = none →
        send httpDate parseResponse resp =
          match readBody resp.body [] with
          | .error e => .error e
          | .ok body => parseResponse resp.status body) := by
  refine ⟨fun resp s => rfl, fun st body => rfl, ?_, ?_, ?_, ?_⟩
  · intro s h1 h2
    simp [RetryAfter.from_str, h1, h2]
  · intro s n h
    simp [RetryAfter.from_str, h]
  · intro s t h1 h2
    simp [RetryAfter.from_str, h1, h2]
  · intro parseResponse resp h
    simp only [send, h]
    cases hb : readBody resp.body [] with
    | error e => rfl
    | ok body => simp [mergeRetryHint_none]

/-- Scanning skips a run of unrecognized PEM blocks. -/
theorem readPemBlocks_skip {K : Type} (C : CryptoIF K) (buffer : String) :
    ∀ (pre rest : List PemBlock),
      (∀ p ∈ pre, p.tag ≠ "EC PRIVATE KEY" ∧ p.tag ≠ "PRIVATE KEY") →
      VapidSignatureBuilder.readPemBlocks C buffer (pre ++ rest) =
        VapidSignatureBuilder.readPemBlocks C buffer rest := by
  intro pre
  induction pre with
  | nil => intro rest _; rfl
  | cons p ps ih =>
      intro rest h
      have hp := h p (List.mem_cons_self p ps)
      simp only [List.cons_append, VapidSignatureBuilder.readPemBlocks]
      rw [if_neg hp.1, if_neg hp.2]
      exact ih rest (fun q hq => h q (List.mem_cons_of_mem p hq))

/-- A block list with no recognized tag scans to `MissingCryptoKeys`. -/
theorem readPemBlocks_missing {K : Type} (C : CryptoIF K) (buffer : String)
    (blocks : List PemBlock)
    (h : ∀ p ∈ blocks, p.tag ≠ "EC PRIVATE KEY" ∧ p.tag ≠ "PRIVATE KEY") :
    VapidSignatureBuilder.readPemBlocks C buffer blocks =
      .error .missingCryptoKeys := by
  have hskip := readPemBlocks_skip C buffer blocks [] h
  simpa using hskip

/-- Looking up a just-inserted key returns the inserted value. -/
theorem lookupA_insertA (l : List (String × Value)) (name : String) (v : Value) :
    lookupA (insertA l name v) name = some v := by
  induction l with
  | nil => simp [insertA, lookupA]
  | cons p rest ih =>
      obtain ⟨k', v'⟩ := p
      by_cases h : k' = name
      · subst h
        simp [insertA, lookupA]
      · simp [insertA, lookupA, h, ih]

/-- Witness for C7: absent header, unparsable value, and the spec's `120`
example, at concrete inputs. -/
theorem retryAfter_extraction_props_witness :
    extractRetryAfter (fun _ => none) ⟨404, none, []⟩ = none ∧
    RetryAfter.from_str (fun _ => none) "oops" = none ∧
    RetryAfter.from_str (fun _ => none) "120" = some (.delay 120) :=
  ⟨(retryAfter_extraction_props (fun _ => none)).2.1 404 [],
   (retryAfter_extraction_props (fun _ => none)).2.2.1 "oops" (by decide) rfl,
   (retryAfter_extraction_props (fun _ => none)).2.2.2.1 "120" 120 (by decide)⟩

/-- C4: `read_pem` scans all parsed PEM blocks in order.  If no block
bears a recognized tag the result is exactly `MissingCryptoKeys`.
Otherwise the first block tagged `EC PRIVATE KEY` (decoded as SEC1) or
`PRIVATE KEY` (decoded as PKCS8) alone determines the result — the
blocks after it are ignored, as the quantification over `post` shows —
and a recognized block that fails to decode yields exactly
`InvalidCryptoKeys`. -/
theorem read_pem_scan_props {K : Type} (C : CryptoIF K) (buffer : String) :
    (∀ blocks, C.pemParse buffer = some blocks →
        (∀ p ∈ blocks, p.tag ≠ "EC PRIVATE KEY" ∧ p.tag ≠ "PRIVATE KEY") →
        VapidSignatureBuilder.read_pem C buffer = .error .missingCryptoKeys) ∧
    (∀ (pre : List PemBlock) (b : PemBlock) (post : List PemBlock),
        C.pemParse buffer = some (pre ++ b :: post) →
        (∀ p ∈ pre, p.tag ≠ "EC PRIVATE KEY" ∧ p.tag ≠ "PRIVATE KEY") →
        (b.tag = "EC PRIVATE KEY" →
          VapidSignatureBuilder.read_pem C buffer =
            match C.sec1Parse b.contents with
            | none => .error .invalidCryptoKeys
            | some private_key =>
                match C.fromBytes private_key with
                | none => .error .invalidCryptoKeys
                | some k => .ok k) ∧
        (b.tag = "PRIVATE KEY" →
          VapidSignatureBuilder.read_pem C buffer =
            match C.fromPem buffer with
            | none => .error .invalidCryptoKeys
            | some k => .ok k)) := by
  constructor
  · intro blocks hparse hall
    simp only [VapidSignatureBuilder.read_pem, hparse]
    exact readPemBlocks_missing C buffer blocks hall
  · intro pre b post hparse hpre
    constructor
    · intro htag
      simp only [VapidSignatureBuilder.read_pem, hparse]
      rw [readPemBlocks_skip C buffer pre (b :: post) hpre]
      simp only [VapidSignatureBuilder.readPemBlocks]
      rw [if_pos htag]
    · intro htag
      simp only [VapidSignatureBuilder.read_pem, hparse]
      rw [readPemBlocks_skip C buffer pre (b :: post) hpre]
      simp only [VapidSignatureBuilder.readPemBlocks]
      rw [if_neg (by rw [htag]; decide), if_pos htag]

/-- Witness for C4: under `demoCrypto`, a buffer holding only a
certificate block fails with the missing-key kind, and a buffer whose
first recognized block is a SEC1 key decodes that block. -/
theorem read_pem_scan_props_witness :
    VapidSignatureBuilder.read_pem demoCrypto "NOKEYS" =
      .error .missingCryptoKeys ∧
    VapidSignatureBuilder.read_pem demoCrypto "SEC1PEM" = .ok [1, 2, 3] :=
  ⟨(read_pem_scan_props demoCrypto "NOKEYS").1 [⟨"CERTIFICATE", [7]⟩] rfl
      (by decide),
   ((read_pem_scan_props demoCrypto "SEC1PEM").2 [⟨"X", []⟩]
      ⟨"EC PRIVATE KEY", [1, 2, 3]⟩ [] rfl (by decide)).1 rfl⟩

/-- C3: loading the same underlying private scalar through every
supported entry point — SEC1 PEM via `from_pem`, PKCS8 PEM via
`from_pem`, DER via `from_der`, raw base64 via `from_base64` — succeeds
and yields builders whose derived uncompressed public-key bytes are
byte-identical across all the formats. -/
theorem loaders_publicKey_crossFormat {K : Type} (C : CryptoIF K)
    (pem1 pem2 : String) (c1 c2 der scalar : List Nat) (b64 : String)
    (pre1 rest1 pre2 rest2 : List PemBlock) (k : K)
    (sub : SubscriptionInfo) (now : Nat)
    (h1 : C.pemParse pem1 = some (pre1 ++ ⟨"EC PRIVATE KEY", c1⟩ :: rest1))
    (h1p : ∀ p ∈ pre1, p.tag ≠ "EC PRIVATE KEY" ∧ p.tag ≠ "PRIVATE KEY")
    (h1s : C.sec1Parse c1 = some scalar)
    (h2 : C.pemParse pem2 = some (pre2 ++ ⟨"PRIVATE KEY", c2⟩ :: rest2))
    (h2p : ∀ p ∈ pre2, p.tag ≠ "EC PRIVATE KEY" ∧ p.tag ≠ "PRIVATE KEY")
    (h2k : C.fromPem pem2 = C.fromBytes scalar)
    (h3 : C.sec1Parse der = some scalar)
    (h4 : b64DecodeUrl b64 = some scalar)
    (h5 : C.fromBytes scalar = some k) :
    (VapidSignatureBuilder.from_pem C pem1 sub now).map
        (fun b => VapidKey.public_key C b.key) = .ok (C.publicKey k) ∧
    (VapidSignatureBuilder.from_pem C pem2 sub now).map
        (fun b => VapidKey.public_key C b.key) = .ok (C.publicKey k) ∧
    (VapidSignatureBuilder.from_der C der sub now).map
        (fun b => VapidKey.public_key C b.key) = .ok (C.publicKey k) ∧
    (VapidSignatureBuilder.from_base64 C b64 sub now).map
        (fun b => VapidKey.public_key C b.key) = .ok (C.publicKey k) := by
  have e1 : VapidSignatureBuilder.read_pem C pem1 = .ok k := by
    simp only [VapidSignatureBuilder.read_pem, h1]
    rw [readPemBlocks_skip C pem1 pre1 _ h1p]
    simp only [VapidSignatureBuilder.readPemBlocks, if_true]
    simp only [h1s, h5]
  have e2 : VapidSignatureBuilder.read_pem C pem2 = .ok k := by
    simp only [VapidSignatureBuilder.read_pem, h2]
    rw [readPemBlocks_skip C pem2 pre2 _ h2p]
    simp only [VapidSignatureBuilder.readPemBlocks, if_true]
    rw [h2k, h5]
    rw [if_neg (by decide)]
  refine ⟨?_, ?_, ?_, ?_⟩
  · simp only [VapidSignatureBuilder.from_pem, e1, Except.map]
    rfl
  · simp only [VapidSignatureBuilder.from_pem, e2, Except.map]
    rfl
  · simp only [VapidSignatureBuilder.from_der, h3, h5, Except.map]
    rfl
  · simp only [VapidSignatureBuilder.from_base64, h4, h5, Except.map]
    rfl

/-- Witness for C3: the scalar `[1, 2, 3]` presented as a SEC1 PEM block,
a PKCS8 PEM buffer, raw DER, and the base64 string `AQID` yields the same
public key `[65, 1, 2, 3]` from all four loaders of `demoCrypto`. -/
theorem loaders_publicKey_crossFormat_witness :
    (VapidSignatureBuilder.from_pem demoCrypto "SEC1PEM" demoSub 0).map
        (fun b => VapidKey.public_key demoCrypto b.key) = .ok [65, 1, 2, 3] ∧
    (VapidSignatureBuilder.from_pem demoCrypto "PKCS8PEM" demoSub 0).map
        (fun b => VapidKey.public_key demoCrypto b.key) = .ok [65, 1, 2, 3] ∧
    (VapidSignatureBuilder.from_der demoCrypto [1, 2, 3] demoSub 0).map
        (fun b => VapidKey.public_key demoCrypto b.key) = .ok [65, 1, 2, 3] ∧
    (VapidSignatureBuilder.from_base64 demoCrypto "AQID" demoSub 0).map
        (fun b => VapidKey.public_key demoCrypto b.key) = .ok [65, 1, 2, 3] :=
  loaders_publicKey_crossFormat demoCrypto "SEC1PEM" "PKCS8PEM" [1, 2, 3] [9]
    [1, 2, 3] [1, 2, 3] "AQID" [⟨"X", []⟩] [] [] [] [1, 2, 3] demoSub 0
    rfl (by decide) rfl rfl (by decide) rfl rfl rfl rfl

/-- C5: a freshly constructed builder starts with exactly the two default
claims — audience the scheme plus authority of the destination endpoint
(independent of its path and query) and expiry the construction time plus
12 hours — and a claim added via `add_claim`, including one whose name
collides with a default, replaces that value in the signed token. -/
theorem fresh_builder_defaults_and_override {K : Type} (C : CryptoIF K)
    (k : K) (sub : SubscriptionInfo) (now : Nat) (uri : Uri)
    (_hparse : C.parseUri sub.endpoint = some uri) :
    (VapidSignatureBuilder.from_ec (K := K) k sub now).claims =
      { custom := [], expiresAt := now + 12 * 3600 } ∧
    (∀ p q, audienceOf { uri with path := p, query := q } = audienceOf uri) ∧
    signedClaimLookup (audienceOf uri)
        (VapidSignatureBuilder.from_ec (K := K) k sub now).claims "aud" =
      some (.str (audienceOf uri)) ∧
    signedClaimLookup (audienceOf uri)
        (VapidSignatureBuilder.from_ec (K := K) k sub now).claims "exp" =
      some (.num (now + 12 * 3600)) ∧
    (∀ name, name ≠ "aud" → name ≠ "exp" →
        signedClaimLookup (audienceOf uri)
          (VapidSignatureBuilder.from_ec (K := K) k sub now).claims name =
          none) ∧
    (∀ (b : VapidSignatureBuilder K) (name : String) (v : Value),
        signedClaimLookup (audienceOf uri) (b.add_claim name v).claims name =
          some v) := by
  refine ⟨rfl, fun p q => rfl, rfl, rfl, ?_, ?_⟩
  · intro name h1 h2
    simp [signedClaimLookup, VapidSignatureBuilder.from_ec, lookupA, h1, h2]
  · intro b name v
    simp [signedClaimLookup, VapidSignatureBuilder.add_claim, lookupA_insertA]

/-- Witness for C5: the default audience claim of a fresh builder for the
demo destination, and its replacement by a colliding `add_claim`. -/
theorem fresh_builder_defaults_witness :
    signedClaimLookup "https://push.example.com"
        (VapidSignatureBuilder.from_ec (K := List Nat) [1, 2, 3] demoSub
          1000).claims "aud" =
      some (.str "https://push.example.com") ∧
    signedClaimLookup "https://push.example.com"
        ((VapidSignatureBuilder.from_ec (K := List Nat) [1, 2, 3] demoSub
            1000).add_claim "aud" (.str "https://other.example.org")).claims
        "aud" =
      some (.str "https://other.example.org") :=
  ⟨(fresh_builder_defaults_and_override demoCrypto [1, 2, 3] demoSub 1000
      ⟨"https", "push.example.com", "/sub/1", none⟩ rfl).2.2.1,
   (fresh_builder_defaults_and_override demoCrypto [1, 2, 3] demoSub 1000
      ⟨"https", "push.example.com", "/sub/1", none⟩ rfl).2.2.2.2.2 _ "aud"
      (.str "https://other.example.org")⟩

/-- C6: when the destination endpoint does not parse as an absolute URI,
`build` returns exactly the `InvalidUri` failure and no signature;
when the endpoint does parse, `build` proceeds to signing. -/
theorem build_uri_gate {K : Type} (C : CryptoIF K)
    (b : VapidSignatureBuilder K) :
    (C.parseUri b.subscription_info.endpoint = none →
        VapidSignatureBuilder.build C b = .error .invalidUri) ∧
    (∀ uri, C.parseUri b.subscription_info.endpoint = some uri →
        VapidSignatureBuilder.build C b =
          VapidSigner.sign C b.key uri b.claims) := by
  constructor
  · intro h
    simp only [VapidSignatureBuilder.build, h]
  · intro uri h
    simp only [VapidSignatureBuilder.build, h]

/-- Witness for C6: an unparsable endpoint fails the build with
`InvalidUri`; the demo endpoint proceeds to signing. -/
theorem build_uri_gate_witness :
    VapidSignatureBuilder.build demoCrypto
        ⟨⟨[], 0⟩, VapidKey.new [1, 2, 3], demoBadSub⟩ = .error .invalidUri ∧
    VapidSignatureBuilder.build demoCrypto
        (VapidSignatureBuilder.from_ec [1, 2, 3] demoSub 0) =
      VapidSigner.sign demoCrypto (VapidKey.new [1, 2, 3])
        ⟨"https", "push.example.com", "/sub/1", none⟩ ⟨[], 12 * 3600⟩ :=
  ⟨(build_uri_gate demoCrypto ⟨⟨[], 0⟩, VapidKey.new [1, 2, 3], demoBadSub⟩).1
      rfl,
   (build_uri_gate demoCrypto
      (VapidSignatureBuilder.from_ec [1, 2, 3] demoSub 0)).2
      ⟨"https", "push.example.com", "/sub/1", none⟩ rfl⟩

/-- C8: `from_base64` and `from_base64_no_sub` decode the input as
URL-safe unpadded base64 into the bare private scalar and build the key
pair from those bytes; an input that is not valid URL-safe unpadded
base64, or whose decoded bytes do not form a valid private key, yields
exactly `InvalidCryptoKeys` from both entry points. -/
theorem from_base64_decode_props {K : Type} (C : CryptoIF K)
    (encoded : String) (sub : SubscriptionInfo) (now : Nat) :
    (∀ bytes k, b64DecodeUrl encoded = some bytes →
        C.fromBytes bytes = some k →
        VapidSignatureBuilder.from_base64 C encoded sub now =
          .ok (VapidSignatureBuilder.from_ec k sub now) ∧
        VapidSignatureBuilder.from_base64_no_sub C encoded =
          .ok { key := VapidKey.new k }) ∧
    (b64DecodeUrl encoded = none →
        VapidSignatureBuilder.from_base64 C encoded sub now =
          .error .invalidCryptoKeys ∧
        VapidSignatureBuilder.from_base64_no_sub C encoded =
          .error .invalidCryptoKeys) ∧
    (∀ bytes, b64DecodeUrl encoded = some bytes → C.fromBytes bytes = none →
        VapidSignatureBuilder.from_base64 C encoded sub now =
          .error .invalidCryptoKeys ∧
        VapidSignatureBuilder.from_base64_no_sub C encoded =
          .error .invalidCryptoKeys) := by
  refine ⟨?_, ?_, ?_⟩
  · intro bytes k h1 h2
    exact ⟨by simp only [VapidSignatureBuilder.from_base64, h1, h2],
           by simp only [VapidSignatureBuilder.from_base64_no_sub, h1, h2]⟩
  · intro h1
    exact ⟨by simp only [VapidSignatureBuilder.from_base64, h1],
           by simp only [VapidSignatureBuilder.from_base64_no_sub, h1]⟩
  · intro bytes h1 h2
    exact ⟨by simp only [VapidSignatureBuilder.from_base64, h1, h2],
           by simp only [VapidSignatureBuilder.from_base64_no_sub, h1, h2]⟩

/-- Witness for C8: the spec's fixture key
`IQ9Ur0ykXoHS9gzfYX0aBjy9lvdrjx_PFUXmie9YRcY` decodes to its 32-byte
scalar, and a string outside the URL-safe alphabet fails with
`InvalidCryptoKeys`. -/
theorem from_base64_decode_props_witness :
    VapidSignatureBuilder.from_base64_no_sub demoCrypto
        "IQ9Ur0ykXoHS9gzfYX0aBjy9lvdrjx_PFUXmie9YRcY" =
      .ok { key := VapidKey.new fixtureScalar } ∧
    VapidSignatureBuilder.from_base64 demoCrypto "no+pad/" demoSub 0 =
      .error .invalidCryptoKeys :=
  ⟨((from_base64_decode_props demoCrypto
        "IQ9Ur0ykXoHS9gzfYX0aBjy9lvdrjx_PFUXmie9YRcY" demoSub 0).1
      fixtureScalar fixtureScalar (by decide) rfl).2,
   ((from_base64_decode_props demoCrypto "no+pad/" demoSub 0).2.1
      (by decide)).1⟩

/-- C9: completing a partial builder always constructs the claims set
afresh — an empty custom-claims map and the default 12-hour expiry from
the completion instant — with only the key carried over; the partial
builder holds no claims at all, so no claim added for one destination can
be carried into the builder for another. -/
theorem add_sub_info_fresh_claims {K : Type}
    (p : PartialVapidSignatureBuilder K) (sub : SubscriptionInfo)
    (now : Nat) :
    (p.add_sub_info sub now).claims =
      { custom := [], expiresAt := now + 12 * 3600 } ∧
    (p.add_sub_info sub now).key = p.key ∧
    (p.add_sub_info sub now).subscription_info = sub :=
  ⟨rfl, rfl, rfl⟩

end WebPush
